import Mathlib

/-!
Verification development for the multi-site storage connection manager
(class MultiSiteConnectionManager): a shallow embedding of the
manager state, its path derivation helpers (Node-style posix path
functions), and its operations, together with theorems about the
registry, pool, and federation behaviour.
-/

set_option maxRecDepth 4000

namespace MultiSite

/-- A single-quote character, used when generating ATTACH statements. -/
def squote : String := String.singleton (Char.ofNat 39)

/-! ## Node-style posix path functions -/

/-- Split a character list on a separator character. -/
def splitOnChar (c : Char) : List Char → List (List Char)
  | [] => [[]]
  | x :: xs =>
    match splitOnChar c xs with
    | [] => [[]]
    | h :: t => if x = c then [] :: h :: t else (x :: h) :: t

/-- Join path segments with a slash separator. -/
def joinSegs : List (List Char) → List Char
  | [] => []
  | [s] => s
  | s :: rest => s ++ '/' :: joinSegs rest

/-- Normalize a segment list: drop empty and dot segments, resolve dot-dot
segments against the accumulated stack, as Node path normalization does. -/
def normSegs (isAbs : Bool) : List (List Char) → List (List Char) → List (List Char)
  | acc, [] => acc.reverse
  | acc, s :: rest =>
    if s = [] then normSegs isAbs acc rest
    else if s = ['.'] then normSegs isAbs acc rest
    else if s = ['.', '.'] then
      match acc with
      | [] => if isAbs then normSegs isAbs [] rest else normSegs isAbs [['.', '.']] rest
      | a :: tl =>
        if a = ['.', '.'] then normSegs isAbs (['.', '.'] :: a :: tl) rest
        else normSegs isAbs tl rest
    else normSegs isAbs (s :: acc) rest

/-- Whether a character-level path is absolute. -/
def isAbsPath : List Char → Bool
  | '/' :: _ => true
  | _ => false

/-- Normalize a path at the character level. -/
def normalizeChars (l : List Char) : List Char :=
  if isAbsPath l then '/' :: joinSegs (normSegs true [] (splitOnChar '/' l))
  else if joinSegs (normSegs false [] (splitOnChar '/' l)) = [] then ['.']
  else joinSegs (normSegs false [] (splitOnChar '/' l))

/-- Node path.normalize on strings. -/
def normalizePath (p : String) : String := String.mk (normalizeChars p.data)

/-- Node path.join of two parts: concatenate with a slash, then normalize. -/
def joinPath (a b : String) : String := normalizePath (a ++ "/" ++ b)

/-- Whether a string starts with the given leading segment, computed on
character lists so that it evaluates in the kernel. -/
def strStartsWith (s lead : String) : Bool :=
  s.data.take lead.data.length == lead.data

/-- Node path.resolve against a current working directory. -/
def resolvePath (cwd p : String) : String :=
  if strStartsWith p "/" then normalizePath p else normalizePath (cwd ++ "/" ++ p)

/-- The last path component, at the character level. -/
def basenameChars (l : List Char) : List Char :=
  (splitOnChar '/' l).getLastD []

/-- Split a character list at its last dot, returning the part before the
dot and the part from the dot on. -/
def lastDotSplit : List Char → Option (List Char × List Char)
  | [] => none
  | c :: cs =>
    match lastDotSplit cs with
    | some (p, e) => some (c :: p, e)
    | none => if c = '.' then some ([], '.' :: cs) else none

/-- Node path.extname: the extension of the last path component, empty for
dot-led names. -/
def extname (p : String) : String :=
  match lastDotSplit (basenameChars p.data) with
  | none => ""
  | some (b, e) => if b = [] then "" else String.mk e

/-- Node path.basename with an extension argument: the last component with
the given suffix stripped when it is a proper suffix. -/
def basenameExt (p ext : String) : String :=
  let b := basenameChars p.data
  let e := ext.data
  if e ≠ [] ∧ e.isSuffixOf b ∧ b ≠ e then
    String.mk (b.take (b.length - e.length))
  else
    String.mk b

/-- Node path.dirname. -/
def dirname (p : String) : String :=
  match splitOnChar '/' p.data with
  | [] => "."
  | [_] => "."
  | ps =>
    let j := joinSegs ps.dropLast
    if j = [] then "/" else String.mk j

/-! ## Database configuration model -/

/-- The connection block of a database configuration. -/
structure ConnSettings where
  filename : String := ""
  database : Option String := none
deriving DecidableEq

/-- Pool settings installed by configureSiteDatabase, recording which
client flavour the afterCreate hook targets and whether the testing
pragmas would run. -/
inductive PoolSetting where
  | betterSqlite3Pool (testingPragmas : Bool)
  | sqlite3Pool (testingPragmas : Bool)
deriving DecidableEq

/-- A database configuration as read from config and passed to the driver. -/
structure DbConfig where
  client : String
  connection : ConnSettings
  useNullAsDefault : Option Bool := none
  pool : Option PoolSetting := none
deriving DecidableEq

/-- configureSiteDatabase: derive the site-specific database configuration
from the site id and the base configuration, as the source does for the
sqlite3, better-sqlite3 and libsql clients. -/
def configureSiteDatabase (envName : String) (siteId : String) (base : DbConfig) : DbConfig :=
  let dbConfig := base
  if dbConfig.client = "sqlite3" ∨ dbConfig.client = "better-sqlite3" then
    let originalFilename := dbConfig.connection.filename
    let ext := extname originalFilename
    let baseName := basenameExt originalFilename ext
    let dirName := dirname originalFilename
    let newFilename := joinPath dirName (baseName ++ "-" ++ siteId ++ ext)
    let dbConfig :=
      { dbConfig with connection := { dbConfig.connection with filename := newFilename } }
    let dbConfig :=
      { dbConfig with useNullAsDefault := some (dbConfig.useNullAsDefault.getD true) }
    let testing := strStartsWith envName "testing"
    if dbConfig.client = "better-sqlite3" then
      { dbConfig with pool := some (PoolSetting.betterSqlite3Pool testing) }
    else
      { dbConfig with pool := some (PoolSetting.sqlite3Pool testing) }
  else if dbConfig.client = "libsql" then
    { dbConfig with connection :=
        { dbConfig.connection with
            database := some ("ghost_site_" ++ siteId),
            filename := "content/data/ghost-" ++ siteId ++ ".db" } }
  else
    dbConfig

/-- The development base configuration from config.development.json. -/
def devBaseConfig : DbConfig :=
  { client := "sqlite3",
    connection := { filename := "content/data/ghost-dev.db", database := none } }

/-! ## Manager state and driver model -/

/-- A result row, abstract. -/
abbrev Row := List String

/-- Association-list lookup, first match wins, as a JS Map get. -/
def mapLookup {α β : Type} [DecidableEq α] : List (α × β) → α → Option β
  | [], _ => none
  | (k, v) :: rest, k2 => if k = k2 then some v else mapLookup rest k2

/-- Association-list update, as a JS Map set: replace in place when the
key is present, append otherwise. -/
def mapSet {α β : Type} [DecidableEq α] : List (α × β) → α → β → List (α × β)
  | [], k, v => [(k, v)]
  | (k1, v1) :: rest, k, v =>
    if k1 = k then (k, v) :: rest else (k1, v1) :: mapSet rest k v

/-- The environment the manager runs in: the base configuration, the
process environment name, the working directory, and the behaviour of the
external driver (store reachability, query evaluation, close failures). -/
structure Env where
  baseDbConfig : DbConfig
  envName : String
  cwd : String
  attachOk : String → Bool
  runQuery : String → List (String × String) → String → Except String (List Row)
  connCloseFails : Nat → Bool
  clientCloseFails : Nat → Bool

/-- The mutable state of the MultiSiteConnectionManager singleton:
the connections map, the libsql clients map, per-handle bookkeeping
(file of each client, attachment list of each client, which handles have
been closed), the fresh-handle counter, and the currentSite field. -/
structure ManagerState where
  connections : List (String × Nat) := []
  libsqlClients : List (String × Nat) := []
  connFile : List (Nat × String) := []
  clientFile : List (Nat × String) := []
  clientAttach : List (Nat × List (String × String)) := []
  closedHandles : List Nat := []
  nextId : Nat := 0
  currentSite : Option String := none
deriving DecidableEq

/-- The initial manager state, as built by the constructor. -/
def mgrInit : ManagerState := {}

/-- JS falsiness of an optional string argument: missing or empty. -/
def jsFalsy : Option String → Bool
  | none => true
  | some s => s = ""

/-- The attachment list of a libsql client handle. -/
def attachOf (st : ManagerState) (c : Nat) : List (String × String) :=
  (mapLookup st.clientAttach c).getD []

/-- The resolved store file of a libsql client handle. -/
def fileOf (st : ManagerState) (c : Nat) : String :=
  (mapLookup st.clientFile c).getD ""

/-! ## Operations -/

/-- getSiteConnection: reject a falsy site id, return a cached knex
connection, or create one from the site-specific configuration and cache
it. The returned handle is a fresh identity drawn from the counter. -/
def getSiteConnection (env : Env) (siteId : Option String) (st : ManagerState) :
    Except String Nat × ManagerState :=
  if jsFalsy siteId then
    (Except.error "IncorrectUsageError: Site ID is required for multi-site database connection", st)
  else
    let id := siteId.getD ""
    match mapLookup st.connections id with
    | some c => (Except.ok c, st)
    | none =>
      let siteDbConfig := configureSiteDatabase env.envName id env.baseDbConfig
      let c := st.nextId
      (Except.ok c,
        { st with
            connections := mapSet st.connections id c,
            connFile := mapSet st.connFile c siteDbConfig.connection.filename,
            nextId := st.nextId + 1 })

/-- getLibSQLClient: reject a falsy site id, return a cached libsql
client, or create one whose url resolves the site-specific filename. -/
def getLibSQLClient (env : Env) (siteId : Option String) (st : ManagerState) :
    Except String Nat × ManagerState :=
  if jsFalsy siteId then
    (Except.error "IncorrectUsageError: Site ID is required for libSQL client", st)
  else
    let id := siteId.getD ""
    match mapLookup st.libsqlClients id with
    | some c => (Except.ok c, st)
    | none =>
      let siteDbConfig := configureSiteDatabase env.envName id env.baseDbConfig
      let c := st.nextId
      (Except.ok c,
        { st with
            libsqlClients := mapSet st.libsqlClients id c,
            clientFile := mapSet st.clientFile c
              (resolvePath env.cwd siteDbConfig.connection.filename),
            clientAttach := mapSet st.clientAttach c [],
            nextId := st.nextId + 1 })

/-- Recognise an ATTACH DATABASE statement of the exact shape the manager
generates; anything else is treated as a plain query by the driver model. -/
def parseAttach (stmt : String) : Option (String × String) :=
  let pre := ("ATTACH DATABASE " ++ squote).data
  if stmt.data.take pre.length = pre then
    let rest := stmt.data.drop pre.length
    match splitOnChar (Char.ofNat 39) rest with
    | [p, tail] =>
      if tail.take 4 = " AS ".data then
        some (String.mk p, String.mk (tail.drop 4))
      else none
    | _ => none
  else none

/-- The driver model for client.execute: an ATTACH statement extends the
client attachment list unless the alias is already in use or the store is
unreachable; any other statement is evaluated by the environment query
function over the client file and its current attachments. -/
def clientExecute (env : Env) (c : Nat) (stmt : String) (st : ManagerState) :
    Except String (List Row) × ManagerState :=
  match parseAttach stmt with
  | some (p, a) =>
    let atts := attachOf st c
    if atts.any (fun pr => pr.1 = a) then
      (Except.error ("database " ++ a ++ " is already in use"), st)
    else if env.attachOk p then
      (Except.ok [], { st with clientAttach := mapSet st.clientAttach c (atts ++ [(a, p)]) })
    else
      (Except.error ("unable to open database " ++ p), st)
  | none => (env.runQuery (fileOf st c) (attachOf st c) stmt, st)

/-- The attach statement built for one additional site at a loop index. -/
def mkAttachQuery (env : Env) (siteId : String) (index : Nat) : String :=
  let siteConfig := configureSiteDatabase env.envName siteId env.baseDbConfig
  "ATTACH DATABASE " ++ squote
    ++ resolvePath env.cwd siteConfig.connection.filename ++ squote
    ++ " AS site" ++ Nat.repr (index + 2)

/-- The attach loop of executeCrossSiteQuery: issue one generated ATTACH
statement per additional site; on the first driver error stop and report
it, leaving the state as the driver left it. -/
def attachLoop (env : Env) (c : Nat) :
    List String → Nat → ManagerState → Option String × ManagerState
  | [], _, st => (none, st)
  | siteId :: rest, index, st =>
    match clientExecute env c (mkAttachQuery env siteId index) st with
    | (Except.error e, st2) => (some e, st2)
    | (Except.ok _, st2) => attachLoop env c rest (index + 1) st2

/-- executeCrossSiteQuery: obtain the primary libsql client, attach each
additional site store under a generated alias, then execute the query;
errors from attach or query are rethrown as they are, with no detach on
any path. -/
def executeCrossSiteQuery (env : Env) (primarySiteId : Option String)
    (additionalSiteIds : List String) (query : String) (st : ManagerState) :
    Except String (List Row) × ManagerState :=
  match getLibSQLClient env primarySiteId st with
  | (Except.error e, st1) => (Except.error e, st1)
  | (Except.ok c, st1) =>
    match attachLoop env c additionalSiteIds 0 st1 with
    | (some e, st2) => (Except.error e, st2)
    | (none, st2) => clientExecute env c query st2

/-- Direct execution of a query against the primary site client, the
comparison point the spec uses for a federation call with no secondary
tenants. -/
def directQuery (env : Env) (siteId : Option String) (query : String) (st : ManagerState) :
    Except String (List Row) × ManagerState :=
  match getLibSQLClient env siteId st with
  | (Except.error e, st1) => (Except.error e, st1)
  | (Except.ok c, st1) => clientExecute env c query st1

/-- setCurrentSite: store the acting site id in the shared field. -/
def setCurrentSite (siteId : String) (st : ManagerState) : ManagerState :=
  { st with currentSite := some siteId }

/-- getCurrentSite: read the shared field. -/
def getCurrentSite (st : ManagerState) : Option String := st.currentSite

/-- createSite: fail when the site already has a connection entry,
otherwise create and return its connection. -/
def createSite (env : Env) (siteId : String) (st : ManagerState) :
    Except String Nat × ManagerState :=
  if (mapLookup st.connections siteId).isSome then
    (Except.error ("ValidationError: Site " ++ siteId ++ " already exists"), st)
  else
    getSiteConnection env (some siteId) st

/-- The connection close loop of destroy: close each tracked connection in
map order; a close failure aborts the loop and propagates. -/
def closeConnectionsLoop (env : Env) :
    List (String × Nat) → ManagerState → Option String × ManagerState
  | [], st => (none, st)
  | (_, c) :: rest, st =>
    if env.connCloseFails c then (some "connection destroy failed", st)
    else closeConnectionsLoop env rest { st with closedHandles := st.closedHandles ++ [c] }

/-- The client close loop of destroy: close each tracked libsql client in
map order; a close failure aborts the loop and propagates. -/
def closeClientsLoop (env : Env) :
    List (String × Nat) → ManagerState → Option String × ManagerState
  | [], st => (none, st)
  | (_, c) :: rest, st =>
    if env.clientCloseFails c then (some "client close failed", st)
    else closeClientsLoop env rest { st with closedHandles := st.closedHandles ++ [c] }

/-- destroy: close every connection, then every libsql client, then clear
both maps; a failure while closing one handle propagates immediately and
nothing after it runs. -/
def destroy (env : Env) (st : ManagerState) : Except String Unit × ManagerState :=
  match closeConnectionsLoop env st.connections st with
  | (some e, st1) => (Except.error e, st1)
  | (none, st1) =>
    match closeClientsLoop env st.libsqlClients st1 with
    | (some e, st2) => (Except.error e, st2)
    | (none, st2) =>
      (Except.ok (), { st2 with connections := [], libsqlClients := [] })

/-- A benign demonstration environment: the development configuration,
every store reachable, every query returning no rows, no close failures. -/
def demoEnv : Env :=
  { baseDbConfig := devBaseConfig,
    envName := "development",
    cwd := "/ghost",
    attachOk := fun _ => true,
    runQuery := fun _ _ _ => Except.ok [],
    connCloseFails := fun _ => false,
    clientCloseFails := fun _ => false }

/-! ## Helper lemmas on association lists -/

theorem mapLookup_mapSet_self {α β : Type} [DecidableEq α]
    (m : List (α × β)) (k : α) (v : β) :
    mapLookup (mapSet m k v) k = some v := by
  induction m with
  | nil => simp [mapSet, mapLookup]
  | cons p rest ih =>
    obtain ⟨k1, v1⟩ := p
    by_cases hk : k1 = k
    · simp [mapSet, mapLookup, hk]
    · simp [mapSet, mapLookup, hk, ih]

theorem mapLookup_mapSet_ne {α β : Type} [DecidableEq α]
    (m : List (α × β)) (k k2 : α) (v : β) (h : k ≠ k2) :
    mapLookup (mapSet m k v) k2 = mapLookup m k2 := by
  induction m with
  | nil => simp [mapSet, mapLookup, h]
  | cons p rest ih =>
    obtain ⟨k1, v1⟩ := p
    by_cases hk : k1 = k
    · subst hk
      simp [mapSet, mapLookup, h]
    · simp [mapSet, mapLookup, hk, ih]

/-! ## Helper lemmas on path splitting and normalization -/

theorem strData_append (s t : String) : (s ++ t).data = s.data ++ t.data := rfl

theorem splitOnChar_ne_nil (c : Char) (xs : List Char) : splitOnChar c xs ≠ [] := by
  cases xs with
  | nil => simp [splitOnChar]
  | cons x xs =>
    simp only [splitOnChar]
    cases h : splitOnChar c xs with
    | nil => simp
    | cons hd tl => by_cases hx : x = c <;> simp [hx]

theorem splitOnChar_not_mem {c : Char} {xs : List Char} (h : c ∉ xs) :
    splitOnChar c xs = [xs] := by
  induction xs with
  | nil => rfl
  | cons x xs ih =>
    simp only [List.mem_cons, not_or] at h
    obtain ⟨hx, hxs⟩ := h
    have hx2 : ¬ x = c := fun e => hx (Eq.symm e)
    simp [splitOnChar, ih hxs, hx2]

theorem splitOnChar_append_cons (c : Char) :
    ∀ (xs ys : List Char), c ∉ xs →
      splitOnChar c (xs ++ c :: ys) = xs :: splitOnChar c ys := by
  intro xs
  induction xs with
  | nil =>
    intro ys _
    simp only [List.nil_append, splitOnChar]
    cases hq : splitOnChar c ys with
    | nil => exact absurd hq (splitOnChar_ne_nil c ys)
    | cons hd tl => simp
  | cons x xs ih =>
    intro ys h
    simp only [List.mem_cons, not_or] at h
    obtain ⟨hx, hxs⟩ := h
    have hx2 : ¬ x = c := fun e => hx (Eq.symm e)
    simp [splitOnChar, ih ys hxs, hx2]

/-- An id is slash-free when it contains no path separator; every id of
the allow-listed identifier grammar is slash-free. -/
def noSlash (s : String) : Prop := '/' ∉ s.data

instance (s : String) : Decidable (noSlash s) := by
  unfold noSlash
  infer_instance

theorem joinPath_dev (id : String) (h : noSlash id) :
    joinPath "content/data" ("ghost-dev-" ++ id ++ ".db")
      = "content/data/ghost-dev-" ++ id ++ ".db" := by
  have hfull : ("content/data" ++ "/" ++ ("ghost-dev-" ++ id ++ ".db")).data
      = "content".data ++ '/' ::
          ("data".data ++ '/' :: ("ghost-dev-".data ++ (id.data ++ ".db".data))) := by
    simp [strData_append, List.append_assoc]
  have hseg : '/' ∉ "ghost-dev-".data ++ (id.data ++ ".db".data) := by
    simp only [List.mem_append, not_or]
    exact ⟨by decide, h, by decide⟩
  have hsplit : splitOnChar '/' (("content/data" ++ "/" ++ ("ghost-dev-" ++ id ++ ".db")).data)
      = ["content".data, "data".data, "ghost-dev-".data ++ (id.data ++ ".db".data)] := by
    rw [hfull]
    rw [splitOnChar_append_cons '/' "content".data _ (by decide)]
    rw [splitOnChar_append_cons '/' "data".data _ (by decide)]
    rw [splitOnChar_not_mem hseg]
  have hsegform : "ghost-dev-".data ++ (id.data ++ ".db".data)
      = 'g' :: ("host-dev-".data ++ (id.data ++ ".db".data)) := by
    rw [show "ghost-dev-".data = 'g' :: "host-dev-".data by decide]
    rfl
  have hne1 : "ghost-dev-".data ++ (id.data ++ ".db".data) ≠ [] := by
    rw [hsegform]; simp
  have hne2 : "ghost-dev-".data ++ (id.data ++ ".db".data) ≠ ['.'] := by
    rw [hsegform]; simp
  have hne3 : "ghost-dev-".data ++ (id.data ++ ".db".data) ≠ ['.', '.'] := by
    rw [hsegform]; simp
  have habs : isAbsPath (("content/data" ++ "/" ++ ("ghost-dev-" ++ id ++ ".db")).data)
      = false := by
    rw [hfull]
    rw [show "content".data = 'c' :: "ontent".data by decide]
    rfl
  have hnorm : normSegs false []
        ["content".data, "data".data, "ghost-dev-".data ++ (id.data ++ ".db".data)]
      = ["content".data, "data".data, "ghost-dev-".data ++ (id.data ++ ".db".data)] := by
    simp [normSegs, hne1, hne2, hne3]
  have hout : joinSegs
        ["content".data, "data".data, "ghost-dev-".data ++ (id.data ++ ".db".data)]
      = "content".data ++ '/' ::
          ("data".data ++ '/' :: ("ghost-dev-".data ++ (id.data ++ ".db".data))) := by
    simp [joinSegs]
  have houtne : "content".data ++ '/' ::
        ("data".data ++ '/' :: ("ghost-dev-".data ++ (id.data ++ ".db".data))) ≠ [] := by
    rw [show "content".data = 'c' :: "ontent".data by decide]
    simp
  show String.mk (normalizeChars
      (("content/data" ++ "/" ++ ("ghost-dev-" ++ id ++ ".db")).data))
    = "content/data/ghost-dev-" ++ id ++ ".db"
  rw [normalizeChars, habs, hsplit, hnorm, hout]
  simp only [Bool.false_eq_true, if_false, if_neg houtne]
  show String.mk ("content".data ++ '/' ::
      ("data".data ++ '/' :: ("ghost-dev-".data ++ (id.data ++ ".db".data))))
    = "content/data/ghost-dev-" ++ id ++ ".db"
  have hrhs : ("content/data/ghost-dev-" ++ id ++ ".db").data
      = "content".data ++ '/' ::
          ("data".data ++ '/' :: ("ghost-dev-".data ++ (id.data ++ ".db".data))) := by
    simp [strData_append, List.append_assoc]
  rw [← hrhs]

theorem filename_dev (id : String) :
    (configureSiteDatabase "development" id devBaseConfig).connection.filename
      = joinPath "content/data" ("ghost-dev-" ++ id ++ ".db") := rfl

theorem filename_dev_injective_on (id₁ id₂ : String)
    (h₁ : noSlash id₁) (h₂ : noSlash id₂)
    (heq : (configureSiteDatabase "development" id₁ devBaseConfig).connection.filename
      = (configureSiteDatabase "development" id₂ devBaseConfig).connection.filename) :
    id₁ = id₂ := by
  rw [filename_dev, filename_dev, joinPath_dev id₁ h₁, joinPath_dev id₂ h₂] at heq
  have hd := congrArg String.data heq
  simp only [strData_append, List.append_assoc] at hd
  simp only [List.cons_append, List.nil_append, List.cons.injEq, true_and] at hd
  have hdata : id₁.data = id₂.data := List.append_cancel_right hd
  cases id₁
  cases id₂
  simp only at hdata
  rw [hdata]

theorem configureSiteDatabase_env_indep (e₁ e₂ id : String) (base : DbConfig) :
    (configureSiteDatabase e₁ id base).connection.filename
      = (configureSiteDatabase e₂ id base).connection.filename := by
  dsimp only [configureSiteDatabase]
  split_ifs <;> rfl

/-! ## Operations never read the currentSite field -/

theorem getSiteConnection_currentSite (env : Env) (i : Option String)
    (st : ManagerState) (x : Option String) :
    getSiteConnection env i { st with currentSite := x }
      = ((getSiteConnection env i st).1,
         { (getSiteConnection env i st).2 with currentSite := x }) := by
  unfold getSiteConnection
  cases hf : jsFalsy i
  · simp only [hf, Bool.false_eq_true, if_false]
    cases hm : mapLookup st.connections (i.getD "") <;> simp [hm]
  · simp [hf]

theorem getLibSQLClient_currentSite (env : Env) (i : Option String)
    (st : ManagerState) (x : Option String) :
    getLibSQLClient env i { st with currentSite := x }
      = ((getLibSQLClient env i st).1,
         { (getLibSQLClient env i st).2 with currentSite := x }) := by
  unfold getLibSQLClient
  cases hf : jsFalsy i
  · simp only [hf, Bool.false_eq_true, if_false]
    cases hm : mapLookup st.libsqlClients (i.getD "") <;> simp [hm]
  · simp [hf]

theorem clientExecute_currentSite (env : Env) (c : Nat) (stmt : String)
    (st : ManagerState) (x : Option String) :
    clientExecute env c stmt { st with currentSite := x }
      = ((clientExecute env c stmt st).1,
         { (clientExecute env c stmt st).2 with currentSite := x }) := by
  unfold clientExecute
  cases hp : parseAttach stmt with
  | none => simp [attachOf, fileOf]
  | some pa =>
    obtain ⟨p, a⟩ := pa
    simp only [attachOf, fileOf]
    by_cases h1 : (((mapLookup st.clientAttach c).getD []).any (fun pr => pr.1 = a)) = true
    · simp [h1]
    · cases h2 : env.attachOk p <;> simp [h1, h2]

theorem attachLoop_currentSite (env : Env) (c : Nat) :
    ∀ (sites : List String) (idx : Nat) (st : ManagerState) (x : Option String),
      attachLoop env c sites idx { st with currentSite := x }
        = ((attachLoop env c sites idx st).1,
           { (attachLoop env c sites idx st).2 with currentSite := x }) := by
  intro sites
  induction sites with
  | nil => intro idx st x; rfl
  | cons s rest ih =>
    intro idx st x
    simp only [attachLoop]
    rw [clientExecute_currentSite]
    cases hce : clientExecute env c (mkAttachQuery env s idx) st with
    | mk r st2 =>
      cases r with
      | error e => simp
      | ok v => simpa using ih (idx + 1) st2 x

theorem executeCrossSiteQuery_currentSite (env : Env) (i : Option String)
    (sites : List String) (q : String) (st : ManagerState) (x : Option String) :
    executeCrossSiteQuery env i sites q { st with currentSite := x }
      = ((executeCrossSiteQuery env i sites q st).1,
         { (executeCrossSiteQuery env i sites q st).2 with currentSite := x }) := by
  unfold executeCrossSiteQuery
  rw [getLibSQLClient_currentSite]
  cases hg : getLibSQLClient env i st with
  | mk r st1 =>
    cases r with
    | error e => simp
    | ok c =>
      simp only []
      rw [attachLoop_currentSite]
      cases ha : attachLoop env c sites 0 st1 with
      | mk ar st2 =>
        cases ar with
        | some e => simp
        | none => simp [clientExecute_currentSite]

theorem createSite_currentSite (env : Env) (siteId : String)
    (st : ManagerState) (x : Option String) :
    createSite env siteId { st with currentSite := x }
      = ((createSite env siteId st).1,
         { (createSite env siteId st).2 with currentSite := x }) := by
  unfold createSite
  by_cases h : (mapLookup st.connections siteId).isSome = true
  · simp [h]
  · simp [h, getSiteConnection_currentSite]

theorem closeConnectionsLoop_currentSite (env : Env) :
    ∀ (l : List (String × Nat)) (st : ManagerState) (x : Option String),
      closeConnectionsLoop env l { st with currentSite := x }
        = ((closeConnectionsLoop env l st).1,
           { (closeConnectionsLoop env l st).2 with currentSite := x }) := by
  intro l
  induction l with
  | nil => intro st x; rfl
  | cons p rest ih =>
    intro st x
    obtain ⟨s, c⟩ := p
    simp only [closeConnectionsLoop]
    cases h : env.connCloseFails c
    · simpa [h] using ih { st with closedHandles := st.closedHandles ++ [c] } x
    · simp [h]

theorem closeClientsLoop_currentSite (env : Env) :
    ∀ (l : List (String × Nat)) (st : ManagerState) (x : Option String),
      closeClientsLoop env l { st with currentSite := x }
        = ((closeClientsLoop env l st).1,
           { (closeClientsLoop env l st).2 with currentSite := x }) := by
  intro l
  induction l with
  | nil => intro st x; rfl
  | cons p rest ih =>
    intro st x
    obtain ⟨s, c⟩ := p
    simp only [closeClientsLoop]
    cases h : env.clientCloseFails c
    · simpa [h] using ih { st with closedHandles := st.closedHandles ++ [c] } x
    · simp [h]

theorem destroy_currentSite (env : Env) (st : ManagerState) (x : Option String) :
    destroy env { st with currentSite := x }
      = ((destroy env st).1, { (destroy env st).2 with currentSite := x }) := by
  unfold destroy
  rw [closeConnectionsLoop_currentSite]
  cases hcc : closeConnectionsLoop env st.connections st with
  | mk r1 st1 =>
    cases r1 with
    | some e => simp
    | none =>
      simp only []
      rw [closeClientsLoop_currentSite]
      cases hcl : closeClientsLoop env st.libsqlClients st1 with
      | mk r2 st2 =>
        cases r2 with
        | some e => simp
        | none => simp

/-! ## Concrete scenarios -/

/-- An environment in which the store of site s3 cannot be attached. -/
def envC2 : Env :=
  { demoEnv with attachOk := fun p => p != "/ghost/content/data/ghost-dev-s3.db" }

/-- A tenant id far outside any identifier grammar. -/
def badId : String := "x; DROP TABLE y"

/-- A state holding connections for sites a and b. -/
def stAB : ManagerState :=
  (getSiteConnection demoEnv (some "b")
    (getSiteConnection demoEnv (some "a") mgrInit).2).2

/-- An environment in which closing the first connection handle fails. -/
def envC7 : Env := { demoEnv with connCloseFails := fun c => c == 0 }

/-! ## Claims -/

/-- C1: evaluating executeCrossSiteQuery on a fresh manager with primary
site1 and secondary site2 succeeds, yet the alias site2 is still attached
to the primary client after the call returns, and that client stays
cached for site1: no alias attached during the call is ever detached, so
the attachment persists past the call that created it. -/
theorem executeCrossSiteQuery_no_detach_eval :
    (executeCrossSiteQuery demoEnv (some "site1") ["site2"] "SELECT 1" mgrInit).1
        = Except.ok [] ∧
    attachOf (executeCrossSiteQuery demoEnv (some "site1") ["site2"] "SELECT 1" mgrInit).2 0
        = [("site2", "/ghost/content/data/ghost-dev-site2.db")] ∧
    mapLookup
        (executeCrossSiteQuery demoEnv (some "site1") ["site2"] "SELECT 1" mgrInit).2.libsqlClients
        "site1"
        = some 0 :=
  ⟨rfl, rfl, rfl⟩

/-- C2: when attaching secondary s3 fails in a federation call on primary
t with secondaries s2 and s3, the call surfaces the raw driver error (not
a structured attach failure naming the tenant), the already attached
alias site2 for s2 is not detached before the error is surfaced, and a
subsequent federation call on t with the remaining secondary s2 fails
with an alias collision instead of succeeding. -/
theorem executeCrossSiteQuery_attach_failure_eval :
    (executeCrossSiteQuery envC2 (some "t") ["s2", "s3"] "SELECT 1" mgrInit).1
        = Except.error "unable to open database /ghost/content/data/ghost-dev-s3.db" ∧
    attachOf (executeCrossSiteQuery envC2 (some "t") ["s2", "s3"] "SELECT 1" mgrInit).2 0
        = [("site2", "/ghost/content/data/ghost-dev-s2.db")] ∧
    (executeCrossSiteQuery envC2 (some "t") ["s2"] "SELECT 1"
        (executeCrossSiteQuery envC2 (some "t") ["s2", "s3"] "SELECT 1" mgrInit).2).1
        = Except.error "database site2 is already in use" :=
  ⟨rfl, rfl, rfl⟩

/-- C3: registration accepts a tenant id far outside any identifier
grammar, and the raw id is interpolated into the derived storage locator
and into the generated ATTACH statement text: no validation chokepoint
exists before locator or SQL alias text construction. -/
theorem createSite_accepts_unvalidated_id_eval :
    (createSite demoEnv badId mgrInit).1 = Except.ok 0 ∧
    (configureSiteDatabase "development" badId devBaseConfig).connection.filename
        = "content/data/ghost-dev-" ++ badId ++ ".db" ∧
    mkAttachQuery demoEnv badId 0
        = "ATTACH DATABASE " ++ squote ++ "/ghost/content/data/ghost-dev-" ++ badId
            ++ ".db" ++ squote ++ " AS site2" :=
  ⟨rfl, rfl, rfl⟩

/-- C4 counterexample: the manager does maintain a process-wide
current-site variable: setCurrentSite stores a value on the shared state
that getCurrentSite then returns, so the first part of the claim is false
of the code. -/
theorem currentSite_variable_maintained :
    getCurrentSite (setCurrentSite "site1" mgrInit) = some "site1" ∧
    getCurrentSite mgrInit = none :=
  ⟨rfl, rfl⟩

/-- C4 amended: although a process-wide currentSite field exists, every
registry, pool and federation operation takes the acting site id as an
explicit parameter and never reads that field: for any two runs of an
operation that differ only in the stored current-site value, the result
is the same. -/
theorem operations_independent_of_currentSite (env : Env) (i : Option String)
    (sites : List String) (q t : String) (st : ManagerState) (x₁ x₂ : Option String) :
    (getSiteConnection env i { st with currentSite := x₁ }).1
        = (getSiteConnection env i { st with currentSite := x₂ }).1 ∧
    (getLibSQLClient env i { st with currentSite := x₁ }).1
        = (getLibSQLClient env i { st with currentSite := x₂ }).1 ∧
    (executeCrossSiteQuery env i sites q { st with currentSite := x₁ }).1
        = (executeCrossSiteQuery env i sites q { st with currentSite := x₂ }).1 ∧
    (createSite env t { st with currentSite := x₁ }).1
        = (createSite env t { st with currentSite := x₂ }).1 ∧
    (destroy env { st with currentSite := x₁ }).1
        = (destroy env { st with currentSite := x₂ }).1 := by
  refine ⟨?_, ?_, ?_, ?_, ?_⟩
  · rw [getSiteConnection_currentSite env i st x₁, getSiteConnection_currentSite env i st x₂]
  · rw [getLibSQLClient_currentSite env i st x₁, getLibSQLClient_currentSite env i st x₂]
  · rw [executeCrossSiteQuery_currentSite env i sites q st x₁,
        executeCrossSiteQuery_currentSite env i sites q st x₂]
  · rw [createSite_currentSite env t st x₁, createSite_currentSite env t st x₂]
  · rw [destroy_currentSite env st x₁, destroy_currentSite env st x₂]

/-- C5: getSiteConnection for a nonempty site id is get-or-create: the
first call returns some handle; calling again immediately returns the
identical handle and leaves the state untouched; and the first call
either returned an existing entry unchanged or created exactly one new
entry, stored it, and bumped the fresh-handle counter once. -/
theorem getSiteConnection_get_or_create (env : Env) (t : String) (st : ManagerState)
    (h : t ≠ "") :
    ∃ c, (getSiteConnection env (some t) st).1 = Except.ok c ∧
      getSiteConnection env (some t) (getSiteConnection env (some t) st).2
        = (Except.ok c, (getSiteConnection env (some t) st).2) ∧
      ((mapLookup st.connections t = some c ∧ (getSiteConnection env (some t) st).2 = st) ∨
       (mapLookup st.connections t = none ∧ c = st.nextId ∧
        ((getSiteConnection env (some t) st).2).connections = mapSet st.connections t c ∧
        ((getSiteConnection env (some t) st).2).nextId = st.nextId + 1)) := by
  have hf : jsFalsy (some t) = false := by simp [jsFalsy, h]
  cases hm : mapLookup st.connections t with
  | some c =>
    refine ⟨c, ?_, ?_, Or.inl ⟨rfl, ?_⟩⟩ <;> simp [getSiteConnection, hf, hm]
  | none =>
    refine ⟨st.nextId, ?_, ?_, Or.inr ⟨rfl, rfl, ?_, ?_⟩⟩ <;>
      simp [getSiteConnection, hf, hm, mapLookup_mapSet_self]

/-- C5 witness: the get-or-create property instantiated on a fresh
manager and the site id site1. -/
theorem getSiteConnection_get_or_create_witness :
    ("site1" : String) ≠ "" ∧
    ∃ c, (getSiteConnection demoEnv (some "site1") mgrInit).1 = Except.ok c ∧
      getSiteConnection demoEnv (some "site1") (getSiteConnection demoEnv (some "site1") mgrInit).2
        = (Except.ok c, (getSiteConnection demoEnv (some "site1") mgrInit).2) ∧
      ((mapLookup mgrInit.connections "site1" = some c ∧
        (getSiteConnection demoEnv (some "site1") mgrInit).2 = mgrInit) ∨
       (mapLookup mgrInit.connections "site1" = none ∧ c = mgrInit.nextId ∧
        ((getSiteConnection demoEnv (some "site1") mgrInit).2).connections
            = mapSet mgrInit.connections "site1" c ∧
        ((getSiteConnection demoEnv (some "site1") mgrInit).2).nextId
            = mgrInit.nextId + 1)) :=
  ⟨by decide, getSiteConnection_get_or_create demoEnv "site1" mgrInit (by decide)⟩

/-- C6: creating a site whose id already has a connection entry fails
with the duplicate-site validation error and leaves the state exactly
unchanged, while creating a not-yet-registered site with a nonempty id
succeeds, stores the new entry, and bumps the counter. -/
theorem createSite_duplicate_and_fresh (env : Env) (t : String) (st : ManagerState) :
    ((mapLookup st.connections t).isSome = true →
      createSite env t st
        = (Except.error ("ValidationError: Site " ++ t ++ " already exists"), st)) ∧
    (mapLookup st.connections t = none → t ≠ "" →
      (createSite env t st).1 = Except.ok st.nextId ∧
      mapLookup ((createSite env t st).2).connections t = some st.nextId ∧
      ((createSite env t st).2).nextId = st.nextId + 1) := by
  constructor
  · intro h
    simp [createSite, h]
  · intro hm hne
    have hf : jsFalsy (some t) = false := by simp [jsFalsy, hne]
    have hs : ¬ (mapLookup st.connections t).isSome = true := by simp [hm]
    simp [createSite, hs, getSiteConnection, hf, hm, mapLookup_mapSet_self]

/-- C6 witness: duplicate rejection on a state already holding site a,
and fresh creation on the empty manager. -/
theorem createSite_duplicate_and_fresh_witness :
    ((mapLookup stAB.connections "a").isSome = true ∧
      createSite demoEnv "a" stAB
        = (Except.error ("ValidationError: Site " ++ "a" ++ " already exists"), stAB)) ∧
    (mapLookup mgrInit.connections "b" = none ∧ ("b" : String) ≠ "" ∧
      (createSite demoEnv "b" mgrInit).1 = Except.ok mgrInit.nextId ∧
      mapLookup ((createSite demoEnv "b" mgrInit).2).connections "b" = some mgrInit.nextId ∧
      ((createSite demoEnv "b" mgrInit).2).nextId = mgrInit.nextId + 1) := by
  refine ⟨⟨by decide, (createSite_duplicate_and_fresh demoEnv "a" stAB).1 (by decide)⟩,
          ⟨rfl, by decide, ?_⟩⟩
  exact (createSite_duplicate_and_fresh demoEnv "b" mgrInit).2 rfl (by decide)

/-- C7: destroy on a state with two tracked connections, where closing
the first fails, surfaces the failure, closes no handle at all (the
second handle is never closed), and leaves both maps fully tracked; only
when no close fails does destroy close every handle and clear the maps. -/
theorem destroy_close_failure_eval :
    stAB.connections = [("a", 0), ("b", 1)] ∧
    destroy envC7 stAB = (Except.error "connection destroy failed", stAB) ∧
    (destroy envC7 stAB).2.closedHandles = [] ∧
    destroy demoEnv stAB
      = (Except.ok (),
         { stAB with connections := [], libsqlClients := [], closedHandles := [0, 1] }) :=
  ⟨rfl, rfl, rfl, rfl⟩

/-- C8: a federation call with an empty list of secondary tenants is the
very same computation as executing the query directly against the
primary site client, and it performs no attach or detach: every client
attachment list is exactly what it was before the call. -/
theorem executeCrossSiteQuery_empty_secondaries (env : Env) (i : Option String)
    (q : String) (st : ManagerState) (c0 : Nat)
    (hq : parseAttach q = none)
    (hfresh : mapLookup st.clientAttach st.nextId = none) :
    executeCrossSiteQuery env i [] q st = directQuery env i q st ∧
    attachOf (executeCrossSiteQuery env i [] q st).2 c0 = attachOf st c0 := by
  constructor
  · unfold executeCrossSiteQuery directQuery
    cases hg : getLibSQLClient env i st with
    | mk r st1 => cases r <;> simp [attachLoop]
  · unfold executeCrossSiteQuery getLibSQLClient
    cases hf : jsFalsy i
    · simp only [hf, Bool.false_eq_true, if_false]
      cases hm : mapLookup st.libsqlClients (i.getD "") with
      | some c =>
        simp only [hm, attachLoop]
        simp [clientExecute, hq]
      | none =>
        simp only [hm, attachLoop]
        simp only [clientExecute, hq]
        unfold attachOf
        by_cases hc : st.nextId = c0
        · subst hc
          simp [mapLookup_mapSet_self, hfresh]
        · simp [mapLookup_mapSet_ne _ _ _ _ hc]
    · simp [hf]

/-- C8 witness: the empty-secondaries degradation instantiated on a
fresh manager, primary site1 and a plain query. -/
theorem executeCrossSiteQuery_empty_secondaries_witness :
    parseAttach "SELECT 1" = none ∧
    mapLookup mgrInit.clientAttach mgrInit.nextId = none ∧
    (executeCrossSiteQuery demoEnv (some "site1") [] "SELECT 1" mgrInit
        = directQuery demoEnv (some "site1") "SELECT 1" mgrInit ∧
     attachOf (executeCrossSiteQuery demoEnv (some "site1") [] "SELECT 1" mgrInit).2 0
        = attachOf mgrInit 0) :=
  ⟨by decide, rfl,
   executeCrossSiteQuery_empty_secondaries demoEnv (some "site1") "SELECT 1" mgrInit 0
     (by decide) rfl⟩

/-- C9 counterexample: locator derivation is not injective on arbitrary
tenant ids: the two distinct ids a/../b and c/../b derive the identical
storage locator, because the derived filename is path-normalized. -/
theorem configureSiteDatabase_locator_collision :
    (configureSiteDatabase "development" "a/../b" devBaseConfig).connection.filename
      = (configureSiteDatabase "development" "c/../b" devBaseConfig).connection.filename ∧
    ("a/../b" : String) ≠ "c/../b" :=
  ⟨rfl, by decide⟩

/-- C9 amended: locator derivation is a pure function of the tenant id
and the base configuration, independent of the process environment name,
and on slash-free ids (in particular every id of the allow-listed
grammar) it is injective for the development base configuration; distinct
ids containing path separators can collide. -/
theorem configureSiteDatabase_deterministic_and_injective_on_safe_ids :
    (∀ e₁ e₂ id : String, ∀ base : DbConfig,
      (configureSiteDatabase e₁ id base).connection.filename
        = (configureSiteDatabase e₂ id base).connection.filename) ∧
    (∀ id₁ id₂ : String, noSlash id₁ → noSlash id₂ →
      (configureSiteDatabase "development" id₁ devBaseConfig).connection.filename
        = (configureSiteDatabase "development" id₂ devBaseConfig).connection.filename →
      id₁ = id₂) :=
  ⟨configureSiteDatabase_env_indep, filename_dev_injective_on⟩

/-- C9 witness: the injectivity half instantiated at the concrete
slash-free id site1. -/
theorem configureSiteDatabase_deterministic_and_injective_witness :
    noSlash "site1" ∧ ("site1" : String) = "site1" :=
  ⟨by decide,
   configureSiteDatabase_deterministic_and_injective_on_safe_ids.2 "site1" "site1"
     (by decide) (by decide) rfl⟩

/-- C10: a missing or empty site id makes getSiteConnection and
getLibSQLClient fail with the respective incorrect-usage error and
leaves the whole manager state, in particular both caches, unchanged. -/
theorem falsy_site_id_rejected (env : Env) (i : Option String) (st : ManagerState)
    (h : jsFalsy i = true) :
    getSiteConnection env i st
      = (Except.error
          "IncorrectUsageError: Site ID is required for multi-site database connection", st) ∧
    getLibSQLClient env i st
      = (Except.error "IncorrectUsageError: Site ID is required for libSQL client", st) := by
  constructor <;> simp [getSiteConnection, getLibSQLClient, h]

/-- C10 witness: the rejection instantiated at the empty site id on a
fresh manager. -/
theorem falsy_site_id_rejected_witness :
    jsFalsy (some "") = true ∧
    (getSiteConnection demoEnv (some "") mgrInit
      = (Except.error
          "IncorrectUsageError: Site ID is required for multi-site database connection",
         mgrInit) ∧
     getLibSQLClient demoEnv (some "") mgrInit
      = (Except.error "IncorrectUsageError: Site ID is required for libSQL client", mgrInit)) :=
  ⟨rfl, falsy_site_id_rejected demoEnv (some "") mgrInit rfl⟩

end MultiSite
